import Mathlib

/-!
Shallow embedding of Skia's deferred GPU command layer
(`src/gpu/GrTargetCommands.cpp`, 2015): the command recorder
(`recordDrawBatch`, `recordStencilPath`, `recordDrawPath`, `recordDrawPaths`,
`recordClear`, `recordClearStencilClip`, `recordDiscard`, `recordCopySurface`),
the state dedup logic (`setupPipelineAndShouldDraw`, both overloads), and the
flush traversal with the per-record `execute` dispatches.

External collaborators (the pipeline layer, the primitive-processor layer, the
batch layer and the index/transform byte pool) are not part of the fragment;
their calls are modelled as fields of an `Externals` record of functions, and
pool pointers are modelled as stable offsets (`Nat`).  Pipeline equality
(`GrPipeline::isEqual`) is a field of `Externals` as well.  Machine `int`
counts are modelled as `Nat` (all call sites pass non-negative counts and no
overflow is relevant to the recorded logic).  Debug-only `SkASSERT`s and GPU
trace-marker bookkeeping (`recordTraceMarkersIfNecessary`, marker open/close
around each record during flush) have no effect on buffer contents or on the
draw dispatches and are omitted.  The flush model follows the default build
configuration (the `USE_BITMAP_TEXTBLOBS` precomputation pass is compiled out).
-/

/-- Stencil operations; the fragment inspects `kInvert_StencilOp` and
`kIncClamp_StencilOp` (the latter only inside debug assertions). -/
inductive StencilOp where
  | kKeep
  | kZero
  | kIncClamp
  | kInvert
deriving DecidableEq

/-- Model of `GrStencilSettings`: the fields the fragment reads for its
front face, plus the two-sidedness flag.  Equality of two settings
(`operator==`) is structural equality of the model. -/
structure GrStencilSettings where
  passOpFront : StencilOp
  failOpFront : StencilOp
  writeMaskFront : Nat
  twoSided : Bool
deriving DecidableEq

/-- `path_fill_type_is_winding` (GrTargetCommands.cpp line 16): the fill is
winding iff the front-face pass op is not `kInvert_StencilOp`.  The body's
`SkASSERT`s are debug-only double checks and are not part of the result. -/
def path_fill_type_is_winding (pathStencilSettings : GrStencilSettings) : Bool :=
  pathStencilSettings.passOpFront != StencilOp.kInvert

/-- Path index element types (`GrDrawTarget::PathIndexType`). -/
inductive PathIndexType where
  | kU8
  | kU16
  | kU32
deriving DecidableEq

/-- `GrPathRange::PathIndexSizeInBytes`: byte size of one index element.
GrPathRange is outside the fragment; the sizes are the element sizes of the
`u8`/`u16`/`u32` index types the enum names. -/
def PathIndexSizeInBytes : PathIndexType → Nat
  | .kU8 => 1
  | .kU16 => 2
  | .kU32 => 4

/-- Path transform element types (`GrDrawTarget::PathTransformType`). -/
inductive PathTransformType where
  | kNone
  | kTranslateX
  | kTranslateY
  | kTranslate
  | kAffine
deriving DecidableEq

/-- `GrPathRendering::PathTransformSize`: number of floats per transform.
GrPathRendering is outside the fragment; `kNone` has size 0, which is the
case the contiguity check treats specially. -/
def PathTransformSize : PathTransformType → Nat
  | .kNone => 0
  | .kTranslateX => 1
  | .kTranslateY => 1
  | .kTranslate => 2
  | .kAffine => 6

/-- Opaque handle for the pipeline description (`GrDrawTarget::PipelineInfo`);
the pipeline layer materializes a concrete pipeline from it. -/
abbrev PipelineInfo := Nat

/-- Batch-tracking data (`GrBatchTracker`), opaque to the recorder. -/
abbrev BatchTracker := Nat

/-- Model of a materialized `GrPipeline`: an opaque identity, the `mustSkip`
flag the recorder queries, and the data handed to `initBatchTracker`. -/
structure GrPipeline where
  progId : Nat
  mustSkip : Bool
  initBatchTracker : Nat
deriving DecidableEq

/-- Model of a `GrPrimitiveProcessor` / `GrPathProcessor`: an opaque identity
plus the view matrix `recordStencilPath` copies out of a path processor. -/
structure GrPrimitiveProcessor where
  procId : Nat
  viewMatrix : Nat
deriving DecidableEq

/-- Model of a `GrBatch`: opaque identity, its batch tracker, and the number
of draws it reports during flush. -/
structure GrBatch where
  batchId : Nat
  tracker : Nat
  numberOfDraws : Nat
deriving DecidableEq

/-- Model of `SkIRect`. -/
structure SkIRect where
  fLeft : Int
  fTop : Int
  fRight : Int
  fBottom : Int
deriving DecidableEq

/-- Model of `SkIPoint`. -/
structure SkIPoint where
  fX : Int
  fY : Int
deriving DecidableEq

/-- Model of a `GrRenderTarget`: identity plus the width/height `recordClear`
reads when no rectangle is supplied. -/
structure GrRenderTarget where
  rtId : Nat
  width : Int
  height : Int
deriving DecidableEq

/-- The slice of `GrPipelineBuilder` that `recordStencilPath` reads. -/
structure GrPipelineBuilder where
  renderTarget : GrRenderTarget
  isHWAntialias : Bool
deriving DecidableEq

/-- `GrColor` is a 32-bit packed color; modelled as `Nat`. -/
abbrev GrColor := Nat

/-- `GrColor_ILLEGAL` (GrColor.h, outside the fragment): the reserved
sentinel color `~0`, i.e. `0xFFFFFFFF` as a 32-bit value.  `recordDiscard`
stores it and `Clear::execute` tests for it. -/
def GrColor_ILLEGAL : GrColor := 0xFFFFFFFF

/-- The external collaborators the recorder calls into, as a record of
functions: the primitive-processor layer (`canMakeEqual`,
`initBatchTracker`), the pipeline layer (`setupPipeline` materialization,
`isEqual`, `mustSkip` is carried on the pipeline itself,
`willBlendWithDst`), and the batch layer (`initBatchTracker` on a batch,
`combineIfPossible`, which absorbs the second batch into the first and
returns the combined batch on success). -/
structure Externals where
  setupPipeline : PipelineInfo → GrPipeline
  pipelinesEqual : GrPipeline → GrPipeline → Bool
  canMakeEqual : GrPrimitiveProcessor → BatchTracker → GrPrimitiveProcessor → BatchTracker → Bool
  initBatchTracker : GrPrimitiveProcessor → Nat → BatchTracker
  batchInitTracker : GrBatch → Nat → GrBatch
  willBlendWithDst : PipelineInfo → GrPrimitiveProcessor → Bool
  combineIfPossible : GrBatch → GrBatch → Option GrBatch

/-- A `SetState` record: the optional primitive processor (absent for the
batch overload), the materialized pipeline, and the batch-tracking data.
The program descriptor `fDesc` is only written during flush and carries no
recorded content. -/
structure SetState where
  fPrimitiveProcessor : Option GrPrimitiveProcessor
  pipeline : GrPipeline
  fBatchTracker : BatchTracker
deriving DecidableEq

/-- A `StencilPath` record's payload. -/
structure StencilPathRec where
  path : Nat
  renderTarget : GrRenderTarget
  fScissor : Nat
  fUseHWAA : Bool
  fViewMatrix : Nat
  fStencil : GrStencilSettings
deriving DecidableEq

/-- A `DrawPaths` record's payload.  `fIndices` is a byte offset into the
shared index pool and `fTransforms` a float offset into the shared transform
pool (the raw pointers of the source, as stable arena offsets). -/
structure DrawPathsRec where
  pathRange : Nat
  fIndices : Nat
  fIndexType : PathIndexType
  fTransforms : Nat
  fTransformType : PathTransformType
  fCount : Nat
  fStencilSettings : GrStencilSettings
deriving DecidableEq

/-- The tagged command record variants of `GrTargetCommands::Cmd`. -/
inductive Cmd where
  | draw (info : Nat)
  | stencilPath (sp : StencilPathRec)
  | drawPath (path : Nat) (fStencilSettings : GrStencilSettings)
  | drawPaths (dp : DrawPathsRec)
  | drawBatch (fBatch : GrBatch)
  | setState (ss : SetState)
  | clear (renderTarget : GrRenderTarget) (fRect : SkIRect) (fColor : GrColor)
      (fCanIgnoreRect : Bool)
  | clearStencilClip (renderTarget : GrRenderTarget) (fRect : SkIRect) (fInsideClip : Bool)
  | copySurface (dst : Nat) (src : Nat) (fSrcRect : SkIRect) (fDstPoint : SkIPoint)
deriving DecidableEq

/-- The recorder's state: the command buffer `fCmdBuffer` (append-only apart
from the pop-back undo and in-place tail merges), the previously active
state record `fPrevState`, and the tracked tail batch `fDrawBatch`. -/
structure GrTargetCommands where
  fCmdBuffer : List Cmd
  fPrevState : Option SetState
  fDrawBatch : Option GrBatch
deriving DecidableEq

/-- `fCmdBuffer.back()`: the trailing record, if any. -/
def cmdBack (buf : List Cmd) : Option Cmd := buf.getLast?

/-- Replace the trailing record in place (the in-place merge of the source:
the old tail object is mutated, no record is appended or removed). -/
def replaceBack (buf : List Cmd) (c : Cmd) : List Cmd := buf.dropLast ++ [c]

/-- Append one record (`GrNEW_APPEND_TO_RECORDER`). -/
def appendCmd (tc : GrTargetCommands) (c : Cmd) : GrTargetCommands :=
  { tc with fCmdBuffer := tc.fCmdBuffer ++ [c] }

/-- Append a kept candidate state record and make it the previous state. -/
def appendState (tc : GrTargetCommands) (ss : SetState) : GrTargetCommands :=
  { tc with fCmdBuffer := tc.fCmdBuffer ++ [Cmd.setState ss], fPrevState := some ss }

/-- The candidate state record the primitive-processor overload of
`setupPipelineAndShouldDraw` builds: the processor, the pipeline
materialized from `pipelineInfo`, and the tracker produced by
`initBatchTracker`. -/
def mkProcState (ext : Externals) (primProc : GrPrimitiveProcessor)
    (pipelineInfo : PipelineInfo) : SetState :=
  { fPrimitiveProcessor := some primProc
    pipeline := ext.setupPipeline pipelineInfo
    fBatchTracker :=
      ext.initBatchTracker primProc (ext.setupPipeline pipelineInfo).initBatchTracker }

/-- The candidate state record the batch overload builds: no primitive
processor; the batch itself carries the tracking data (the record's own
tracker field stays at its default). -/
def mkBatchState (ext : Externals) (pipelineInfo : PipelineInfo) : SetState :=
  { fPrimitiveProcessor := none
    pipeline := ext.setupPipeline pipelineInfo
    fBatchTracker := 0 }

/-- `setupPipelineAndShouldDraw` (primitive-processor overload, line 354).
The source appends the candidate record first and pops it again on skip or
on dedup; the model performs the equivalent net buffer change.  Returns the
updated recorder and the should-draw flag (`false` is the skip signal). -/
def setupPipelineAndShouldDrawProc (ext : Externals) (tc : GrTargetCommands)
    (primProc : GrPrimitiveProcessor) (pipelineInfo : PipelineInfo) :
    GrTargetCommands × Bool :=
  if (ext.setupPipeline pipelineInfo).mustSkip then
    (tc, false)
  else
    match tc.fPrevState with
    | some prev =>
      match prev.fPrimitiveProcessor with
      | some p0 =>
        if ext.canMakeEqual p0 prev.fBatchTracker primProc
              (ext.initBatchTracker primProc (ext.setupPipeline pipelineInfo).initBatchTracker)
            && ext.pipelinesEqual prev.pipeline (ext.setupPipeline pipelineInfo) then
          (tc, true)
        else
          (appendState tc (mkProcState ext primProc pipelineInfo), true)
      | none => (appendState tc (mkProcState ext primProc pipelineInfo), true)
    | none => (appendState tc (mkProcState ext primProc pipelineInfo), true)

/-- `setupPipelineAndShouldDraw` (batch overload, line 381).  On a
non-skipped pipeline the batch's tracker is initialized
(`batch->initBatchTracker`); the possibly updated batch is returned. -/
def setupPipelineAndShouldDrawBatch (ext : Externals) (tc : GrTargetCommands)
    (batch : GrBatch) (pipelineInfo : PipelineInfo) :
    GrTargetCommands × GrBatch × Bool :=
  if (ext.setupPipeline pipelineInfo).mustSkip then
    (tc, batch, false)
  else
    let b1 := ext.batchInitTracker batch (ext.setupPipeline pipelineInfo).initBatchTracker
    match tc.fPrevState with
    | some prev =>
      match prev.fPrimitiveProcessor with
      | none =>
        if ext.pipelinesEqual prev.pipeline (ext.setupPipeline pipelineInfo) then
          (tc, b1, true)
        else
          (appendState tc (mkBatchState ext pipelineInfo), b1, true)
      | some _ => (appendState tc (mkBatchState ext pipelineInfo), b1, true)
    | none => (appendState tc (mkBatchState ext pipelineInfo), b1, true)

/-- `GrTargetCommands::recordDrawBatch` (line 29). -/
def recordDrawBatch (ext : Externals) (tc : GrTargetCommands) (batch : GrBatch)
    (pipelineInfo : PipelineInfo) : GrTargetCommands × Option Cmd :=
  match setupPipelineAndShouldDrawBatch ext tc batch pipelineInfo with
  | (tc1, _, false) => (tc1, none)
  | (tc1, b1, true) =>
    match cmdBack tc1.fCmdBuffer, tc1.fDrawBatch with
    | some (Cmd.drawBatch _), some tracked =>
      -- SkASSERT(&fCmdBuffer.back() == fDrawBatch): the tracked batch is the
      -- tail record's batch.  `combineIfPossible` absorbs into the tail in
      -- place on success.
      match ext.combineIfPossible tracked b1 with
      | some combined =>
        ({ tc1 with fCmdBuffer := replaceBack tc1.fCmdBuffer (Cmd.drawBatch combined),
                    fDrawBatch := some combined }, some (Cmd.drawBatch combined))
      | none =>
        ({ tc1 with fCmdBuffer := tc1.fCmdBuffer ++ [Cmd.drawBatch b1],
                    fDrawBatch := some b1 }, some (Cmd.drawBatch b1))
    | _, _ =>
      ({ tc1 with fCmdBuffer := tc1.fCmdBuffer ++ [Cmd.drawBatch b1],
                  fDrawBatch := some b1 }, some (Cmd.drawBatch b1))

/-- `GrTargetCommands::recordStencilPath` (line 51): appends a `StencilPath`
record directly; there is no call to `setupPipelineAndShouldDraw`. -/
def recordStencilPath (tc : GrTargetCommands) (pipelineBuilder : GrPipelineBuilder)
    (pathProc : GrPrimitiveProcessor) (path : Nat) (scissorState : Nat)
    (stencilSettings : GrStencilSettings) : GrTargetCommands × Option Cmd :=
  let sp : StencilPathRec :=
    { path := path
      renderTarget := pipelineBuilder.renderTarget
      fScissor := scissorState
      fUseHWAA := pipelineBuilder.isHWAntialias
      fViewMatrix := pathProc.viewMatrix
      fStencil := stencilSettings }
  (appendCmd tc (Cmd.stencilPath sp), some (Cmd.stencilPath sp))

/-- `GrTargetCommands::recordDrawPath` (line 68). -/
def recordDrawPath (ext : Externals) (tc : GrTargetCommands)
    (pathProc : GrPrimitiveProcessor) (path : Nat)
    (stencilSettings : GrStencilSettings) (pipelineInfo : PipelineInfo) :
    GrTargetCommands × Option Cmd :=
  match setupPipelineAndShouldDrawProc ext tc pathProc pipelineInfo with
  | (tc1, false) => (tc1, none)
  | (tc1, true) =>
    (appendCmd tc1 (Cmd.drawPath path stencilSettings),
     some (Cmd.drawPath path stencilSettings))

/-- `GrTargetCommands::recordDrawPaths` (line 83).  `savedIndices` and
`savedTransforms` are the stable pool offsets returned by the external
`iodb->appendIndicesAndTransforms` call (made only after a non-skipped state
resolution); they are inputs of the model. -/
def recordDrawPaths (ext : Externals) (tc : GrTargetCommands)
    (pathProc : GrPrimitiveProcessor) (pathRange : Nat)
    (savedIndices : Nat) (indexType : PathIndexType)
    (savedTransforms : Nat) (transformType : PathTransformType)
    (count : Nat) (stencilSettings : GrStencilSettings)
    (pipelineInfo : PipelineInfo) : GrTargetCommands × Option Cmd :=
  match setupPipelineAndShouldDrawProc ext tc pathProc pipelineInfo with
  | (tc1, false) => (tc1, none)
  | (tc1, true) =>
    let dp : DrawPathsRec :=
      { pathRange := pathRange
        fIndices := savedIndices
        fIndexType := indexType
        fTransforms := savedTransforms
        fTransformType := transformType
        fCount := count
        fStencilSettings := stencilSettings }
    match cmdBack tc1.fCmdBuffer with
    | some (Cmd.drawPaths previous) =>
      if pathRange = previous.pathRange ∧ indexType = previous.fIndexType ∧
          transformType = previous.fTransformType ∧
          stencilSettings = previous.fStencilSettings ∧
          path_fill_type_is_winding stencilSettings = true ∧
          ext.willBlendWithDst pipelineInfo pathProc = false then
        if previous.fIndices + previous.fCount * PathIndexSizeInBytes indexType
              = savedIndices ∧
            (PathTransformSize transformType = 0 ∨
              previous.fTransforms + previous.fCount * PathTransformSize transformType
                = savedTransforms) then
          -- Fold this DrawPaths call into the one previous.
          let merged := Cmd.drawPaths { previous with fCount := previous.fCount + count }
          ({ tc1 with fCmdBuffer := replaceBack tc1.fCmdBuffer merged }, none)
        else
          (appendCmd tc1 (Cmd.drawPaths dp), some (Cmd.drawPaths dp))
      else
        (appendCmd tc1 (Cmd.drawPaths dp), some (Cmd.drawPaths dp))
    | _ => (appendCmd tc1 (Cmd.drawPaths dp), some (Cmd.drawPaths dp))

/-- `GrTargetCommands::recordClear` (line 146): a null rect is replaced by
the full render-target rectangle `[0, 0, width, height]`. -/
def recordClear (tc : GrTargetCommands) (rect : Option SkIRect) (color : GrColor)
    (canIgnoreRect : Bool) (renderTarget : GrRenderTarget) :
    GrTargetCommands × Cmd :=
  let r : SkIRect :=
    match rect with
    | none => { fLeft := 0, fTop := 0, fRight := renderTarget.width,
                fBottom := renderTarget.height }
    | some r => r
  let clr := Cmd.clear renderTarget r color canIgnoreRect
  (appendCmd tc clr, clr)

/-- `GrTargetCommands::recordClearStencilClip` (line 169). -/
def recordClearStencilClip (tc : GrTargetCommands) (rect : SkIRect)
    (insideClip : Bool) (renderTarget : GrRenderTarget) :
    GrTargetCommands × Cmd :=
  let clr := Cmd.clearStencilClip renderTarget rect insideClip
  (appendCmd tc clr, clr)

/-- `GrTargetCommands::recordDiscard` (line 181): a `Clear` record whose
color is the `GrColor_ILLEGAL` sentinel.  The source leaves `fRect` and
`fCanIgnoreRect` at the record's defaults (they are never read on the
discard path); the model uses the zero rect and `false`. -/
def recordDiscard (tc : GrTargetCommands) (renderTarget : GrRenderTarget) :
    GrTargetCommands × Cmd :=
  let clr := Cmd.clear renderTarget ⟨0, 0, 0, 0⟩ GrColor_ILLEGAL false
  (appendCmd tc clr, clr)

/-- `GrTargetCommands::recordCopySurface` (line 344). -/
def recordCopySurface (tc : GrTargetCommands) (dst : Nat) (src : Nat)
    (srcRect : SkIRect) (dstPoint : SkIPoint) : GrTargetCommands × Cmd :=
  let cs := Cmd.copySurface dst src srcRect dstPoint
  (appendCmd tc cs, cs)

/-- `GrTargetCommands::reset` (line 190): destroys all records and clears the
cached previous state and tracked batch. -/
def resetCommands : GrTargetCommands :=
  { fCmdBuffer := [], fPrevState := none, fDrawBatch := none }

/-- The backend calls flush issues, in order (`GrGpu` methods, plus the
batch target's `flushNext`). -/
inductive BackendCall where
  | draw (primProc : Option GrPrimitiveProcessor) (info : Nat)
  | stencilPath (path : Nat) (renderTarget : GrRenderTarget)
  | drawPath (path : Nat) (fStencilSettings : GrStencilSettings)
  | drawPaths (dp : DrawPathsRec)
  | flushNextBatch (numberOfDraws : Nat)
  | buildProgramDesc (primProc : GrPrimitiveProcessor)
  | clear (fRect : SkIRect) (fColor : GrColor) (fCanIgnoreRect : Bool)
      (renderTarget : GrRenderTarget)
  | discard (renderTarget : GrRenderTarget)
  | clearStencilClip (fRect : SkIRect) (fInsideClip : Bool)
      (renderTarget : GrRenderTarget)
  | copySurface (dst : Nat) (src : Nat) (fSrcRect : SkIRect) (fDstPoint : SkIPoint)
deriving DecidableEq

/-- The per-record `execute` methods (lines 280-342): the backend calls one
record issues given the current state.  In release builds the `SkASSERT(state)`
checks are unchecked and the dispatch happens regardless, so the model passes
the current state through as an `Option`.  `DrawBatch::execute` only drives
geometry generation against the batch target (no backend call); the flush
loop dispatches `flushNext` for batch records instead of calling `execute`. -/
def Cmd.execute : Cmd → Option SetState → List BackendCall
  | Cmd.draw info, state => [BackendCall.draw (state.bind SetState.fPrimitiveProcessor) info]
  | Cmd.stencilPath sp, _ => [BackendCall.stencilPath sp.path sp.renderTarget]
  | Cmd.drawPath path st, _ => [BackendCall.drawPath path st]
  | Cmd.drawPaths dp, _ => [BackendCall.drawPaths dp]
  | Cmd.drawBatch _, _ => []
  | Cmd.setState ss, _ =>
    match ss.fPrimitiveProcessor with
    | some pp => [BackendCall.buildProgramDesc pp]
    | none => []
  | Cmd.clear rt r color canIgnoreRect, _ =>
    if color = GrColor_ILLEGAL then [BackendCall.discard rt]
    else [BackendCall.clear r color canIgnoreRect rt]
  | Cmd.clearStencilClip rt r insideClip, _ => [BackendCall.clearStencilClip r insideClip rt]
  | Cmd.copySurface dst src r p, _ => [BackendCall.copySurface dst src r p]

/-- One step of the flush loop (lines 231-274): `DrawBatch` records dispatch
the batch target's `flushNext` with the batch's draw count; every other
record dispatches its `execute`. -/
def flushRecord (c : Cmd) (currentState : Option SetState) : List BackendCall :=
  match c with
  | Cmd.drawBatch b => [BackendCall.flushNextBatch b.numberOfDraws]
  | c => Cmd.execute c currentState

/-- The current-state update of the flush loop: a `SetState` record becomes
the current state; every other record leaves it unchanged. -/
def nextState (c : Cmd) (currentState : Option SetState) : Option SetState :=
  match c with
  | Cmd.setState ss => some ss
  | _ => currentState

/-- The flush traversal: every record once, in recorded order, threading the
current state. -/
def flushLoop : List Cmd → Option SetState → List BackendCall
  | [], _ => []
  | c :: rest, currentState =>
    flushRecord c currentState ++ flushLoop rest (nextState c currentState)

/-- `GrTargetCommands::flush` (line 196): a no-op on an empty buffer,
otherwise the single traversal starting with no current state. -/
def flush (tc : GrTargetCommands) : List BackendCall :=
  if tc.fCmdBuffer = [] then [] else flushLoop tc.fCmdBuffer none

/-- The current state after traversing a list of records. -/
def stateAfter : List Cmd → Option SetState → Option SetState
  | [], currentState => currentState
  | c :: rest, currentState => stateAfter rest (nextState c currentState)

/-- The draw-family record kinds. -/
def Cmd.isDrawFamily : Cmd → Bool
  | Cmd.draw _ => true
  | Cmd.stencilPath _ => true
  | Cmd.drawPath _ _ => true
  | Cmd.drawPaths _ => true
  | Cmd.drawBatch _ => true
  | _ => false

/-- State records. -/
def Cmd.isSetState : Cmd → Bool
  | Cmd.setState _ => true
  | _ => false

/-- The backend calls that are draw-family dispatches (a `DrawBatch` record's
dispatch is the batch target's `flushNext`). -/
def BackendCall.isDrawDispatch : BackendCall → Bool
  | BackendCall.draw _ _ => true
  | BackendCall.stencilPath _ _ => true
  | BackendCall.drawPath _ _ => true
  | BackendCall.drawPaths _ => true
  | BackendCall.flushNextBatch _ => true
  | _ => false

/-- The counts of the `DrawPaths` records of a buffer, in order. -/
def drawPathsCounts : List Cmd → List Nat
  | [] => []
  | Cmd.drawPaths dp :: rest => dp.fCount :: drawPathsCounts rest
  | _ :: rest => drawPathsCounts rest

/-- One `recordDrawPaths` request, bundled. -/
structure DrawPathsReq where
  pathProc : GrPrimitiveProcessor
  pathRange : Nat
  savedIndices : Nat
  indexType : PathIndexType
  savedTransforms : Nat
  transformType : PathTransformType
  count : Nat
  stencilSettings : GrStencilSettings
  pipelineInfo : PipelineInfo
deriving DecidableEq

/-- `recordDrawPaths` on a bundled request. -/
def recordDrawPathsReq (ext : Externals) (tc : GrTargetCommands) (r : DrawPathsReq) :
    GrTargetCommands × Option Cmd :=
  recordDrawPaths ext tc r.pathProc r.pathRange r.savedIndices r.indexType
    r.savedTransforms r.transformType r.count r.stencilSettings r.pipelineInfo

/-- A sequence of `recordDrawPaths` requests, returning the final recorder
state and the per-request returned commands. -/
def recordDrawPathsSeq (ext : Externals) (tc : GrTargetCommands) :
    List DrawPathsReq → GrTargetCommands × List (Option Cmd)
  | [] => (tc, [])
  | r :: rs =>
    let s := recordDrawPathsReq ext tc r
    let t := recordDrawPathsSeq ext s.1 rs
    (t.1, s.2 :: t.2)

/-- Sum of the request counts of a sequence. -/
def sumCounts (reqs : List DrawPathsReq) : Nat := (reqs.map DrawPathsReq.count).sum

/-- All the conditions under which one `recordDrawPaths` request folds into
the recorder's trailing `DrawPaths` record: the previous state dedups the
candidate (so no state record is interposed), the pipeline is not skipped,
the tail record is `DrawPaths`, the identity fields match, the fill rule is
winding, the draw does not blend with the destination, and the new pool
offsets are contiguous with the tail's trailing bytes. -/
def foldsIntoTail (ext : Externals) (tc : GrTargetCommands) (r : DrawPathsReq) : Bool :=
  match tc.fPrevState, cmdBack tc.fCmdBuffer with
  | some prev, some (Cmd.drawPaths previous) =>
    match prev.fPrimitiveProcessor with
    | some p0 =>
      !(ext.setupPipeline r.pipelineInfo).mustSkip &&
      ext.canMakeEqual p0 prev.fBatchTracker r.pathProc
        (ext.initBatchTracker r.pathProc (ext.setupPipeline r.pipelineInfo).initBatchTracker) &&
      ext.pipelinesEqual prev.pipeline (ext.setupPipeline r.pipelineInfo) &&
      decide (r.pathRange = previous.pathRange) &&
      decide (r.indexType = previous.fIndexType) &&
      decide (r.transformType = previous.fTransformType) &&
      decide (r.stencilSettings = previous.fStencilSettings) &&
      path_fill_type_is_winding r.stencilSettings &&
      !(ext.willBlendWithDst r.pipelineInfo r.pathProc) &&
      decide (previous.fIndices + previous.fCount * PathIndexSizeInBytes r.indexType
        = r.savedIndices) &&
      (decide (PathTransformSize r.transformType = 0) ||
        decide (previous.fTransforms + previous.fCount * PathTransformSize r.transformType
          = r.savedTransforms))
    | none => false
  | _, _ => false

/-- A sequence of requests each of which folds into the trailing record of
the recorder state reached so far. -/
inductive MergeChain (ext : Externals) : GrTargetCommands → List DrawPathsReq → Prop where
  | nil (tc : GrTargetCommands) : MergeChain ext tc []
  | cons (tc : GrTargetCommands) (r : DrawPathsReq) (rs : List DrawPathsReq) :
      foldsIntoTail ext tc r = true →
      MergeChain ext (recordDrawPathsReq ext tc r).1 rs →
      MergeChain ext tc (r :: rs)

/-- One draw-family request that resolves an active state: `DrawPath`,
`DrawPaths` or `DrawBatch` (the `Draw` recorder and `StencilPath`, which
resolves no state, live outside this dedup path). -/
inductive DrawReq where
  | path (pathProc : GrPrimitiveProcessor) (path : Nat)
      (stencilSettings : GrStencilSettings) (pipelineInfo : PipelineInfo)
  | paths (r : DrawPathsReq)
  | batch (b : GrBatch) (pipelineInfo : PipelineInfo)
deriving DecidableEq

/-- The pipeline description a request carries. -/
def DrawReq.pipelineInfo : DrawReq → PipelineInfo
  | .path _ _ _ info => info
  | .paths r => r.pipelineInfo
  | .batch _ info => info

/-- The candidate state record a request resolves to. -/
def resolvedState (ext : Externals) : DrawReq → SetState
  | .path pathProc _ _ info => mkProcState ext pathProc info
  | .paths r => mkProcState ext r.pathProc r.pipelineInfo
  | .batch _ info => mkBatchState ext info

/-- Equality of two state records for dedup purposes, following the spec's
words: both have a primitive and the primitive layer reports them
interchangeable given their tracking data and the pipelines are equal, or
both lack a primitive and the pipelines are equal. -/
def stateRecordsEqual (ext : Externals) (a b : SetState) : Bool :=
  match a.fPrimitiveProcessor, b.fPrimitiveProcessor with
  | some pa, some pb =>
    ext.canMakeEqual pa a.fBatchTracker pb b.fBatchTracker &&
    ext.pipelinesEqual a.pipeline b.pipeline
  | none, none => ext.pipelinesEqual a.pipeline b.pipeline
  | _, _ => false

/-- Dispatch a draw-family request to its recorder operation. -/
def recordReq (ext : Externals) (tc : GrTargetCommands) :
    DrawReq → GrTargetCommands × Option Cmd
  | .path pathProc path st info => recordDrawPath ext tc pathProc path st info
  | .paths r => recordDrawPathsReq ext tc r
  | .batch b info => recordDrawBatch ext tc b info

/-- A concrete external layer used by the closed witnesses and
counterexamples: pipeline descriptions at 100 and above materialize to
pipelines that must be skipped, pipeline equality is structural, primitive
processors are interchangeable when processor and tracker agree, nothing
blends with the destination, and batches combine when their identities
agree. -/
def ext0 : Externals :=
  { setupPipeline := fun n =>
      { progId := n, mustSkip := decide (100 ≤ n), initBatchTracker := 0 }
    pipelinesEqual := fun a b => decide (a = b)
    canMakeEqual := fun p1 t1 p2 t2 => decide (p1 = p2) && decide (t1 = t2)
    initBatchTracker := fun _ i => i
    batchInitTracker := fun b i => { b with tracker := i }
    willBlendWithDst := fun _ _ => false
    combineIfPossible := fun a b =>
      if a.batchId = b.batchId then
        some { batchId := a.batchId, tracker := a.tracker,
               numberOfDraws := a.numberOfDraws + b.numberOfDraws }
      else none }

/-- A concrete primitive processor. -/
def ppW : GrPrimitiveProcessor := { procId := 7, viewMatrix := 0 }

/-- A concrete 4 by 4 render target. -/
def rtW : GrRenderTarget := { rtId := 0, width := 4, height := 4 }

/-- A concrete pipeline builder over `rtW`. -/
def pbW : GrPipelineBuilder := { renderTarget := rtW, isHWAntialias := false }

/-- A winding stencil configuration (pass op is not `kInvert`). -/
def windingStencil : GrStencilSettings :=
  { passOpFront := StencilOp.kIncClamp, failOpFront := StencilOp.kIncClamp,
    writeMaskFront := 0xFFFF, twoSided := false }

/-- An even-odd stencil configuration (pass op is `kInvert`). -/
def evenOddStencil : GrStencilSettings :=
  { passOpFront := StencilOp.kInvert, failOpFront := StencilOp.kKeep,
    writeMaskFront := 1, twoSided := false }

/-- The state record resolved by `ext0` for `ppW` and pipeline description 1. -/
def ssW : SetState := mkProcState ext0 ppW 1

/-- A concrete trailing `DrawPaths` record: range 1, `u16` indices starting
at pool offset 0, translate transforms starting at offset 0, count 3. -/
def prevW : DrawPathsRec :=
  { pathRange := 1, fIndices := 0, fIndexType := PathIndexType.kU16,
    fTransforms := 0, fTransformType := PathTransformType.kTranslate,
    fCount := 3, fStencilSettings := windingStencil }

/-- A concrete recorder state whose tail is `prevW` with `ssW` active. -/
def tcW : GrTargetCommands :=
  { fCmdBuffer := [Cmd.setState ssW, Cmd.drawPaths prevW],
    fPrevState := some ssW, fDrawBatch := none }

/-- A request of count 5 contiguous with `prevW` (3 elements stored). -/
def r1W : DrawPathsReq :=
  { pathProc := ppW, pathRange := 1, savedIndices := 6,
    indexType := PathIndexType.kU16, savedTransforms := 6,
    transformType := PathTransformType.kTranslate, count := 5,
    stencilSettings := windingStencil, pipelineInfo := 1 }

/-- A request of count 2 contiguous with the tail after `r1W` folded
(8 elements stored). -/
def r2W : DrawPathsReq :=
  { r1W with savedIndices := 16, savedTransforms := 16, count := 2 }

/-- The recorder state after one path-draw request of count 3 on a fresh
recorder (used by the first counterexample). -/
def step1tc : GrTargetCommands :=
  (recordDrawPaths ext0 resetCommands ppW 1 0 PathIndexType.kU16 0
    PathTransformType.kTranslate 3 windingStencil 1).1

/-- A one-record buffer used by the flush witness. -/
def tcF : GrTargetCommands :=
  { fCmdBuffer := [Cmd.clear rtW ⟨0, 0, 4, 4⟩ 0 false],
    fPrevState := none, fDrawBatch := none }

/-- A concrete batch. -/
def batchW : GrBatch := { batchId := 1, tracker := 0, numberOfDraws := 0 }

/-- The batch tracked by `tcB`'s tail record. -/
def batchTailW : GrBatch := { batchId := 1, tracker := 0, numberOfDraws := 2 }

/-- A second batch with the same identity as `batchTailW`, so the two
report themselves combinable under `ext0`. -/
def batchW2 : GrBatch := { batchId := 1, tracker := 0, numberOfDraws := 1 }

/-- The batch-mode state record resolved by `ext0` for description 2. -/
def ssB : SetState := mkBatchState ext0 2

/-- A concrete recorder whose tail is a `DrawBatch` record with a tracked
batch and whose active state is the batch-mode state `ssB`. -/
def tcB : GrTargetCommands :=
  { fCmdBuffer := [Cmd.setState ssB, Cmd.drawBatch batchTailW],
    fPrevState := some ssB, fDrawBatch := some batchTailW }

/-- A concrete `DrawPath` request (used by the state-dedup witness). -/
def reqA : DrawReq := DrawReq.path ppW 5 windingStencil 1

/-- A second `DrawPath` request resolving to an equal state. -/
def reqB : DrawReq := DrawReq.path ppW 6 windingStencil 1

theorem replaceBack_of_cmdBack {buf : List Cmd} {c : Cmd} (h : cmdBack buf = some c) :
    replaceBack buf c = buf := by
  obtain ⟨ys, rfl⟩ := List.getLast?_eq_some_iff.mp h
  simp [replaceBack, List.dropLast_concat]

theorem cmdBack_replaceBack (buf : List Cmd) (c : Cmd) :
    cmdBack (replaceBack buf c) = some c := by
  simp [cmdBack, replaceBack, List.getLast?_concat]

theorem replaceBack_replaceBack (buf : List Cmd) (c c' : Cmd) :
    replaceBack (replaceBack buf c) c' = replaceBack buf c' := by
  simp [replaceBack, List.dropLast_concat]

theorem countP_replaceBack {buf : List Cmd} {c' : Cmd} (p : Cmd → Bool) (c : Cmd)
    (h : cmdBack buf = some c') (hc : p c = p c') :
    (replaceBack buf c).countP p = buf.countP p := by
  obtain ⟨ys, rfl⟩ := List.getLast?_eq_some_iff.mp h
  simp [replaceBack, List.dropLast_concat, List.countP_append, List.countP_cons, hc]

theorem setupProc_skip (ext : Externals) (tc : GrTargetCommands)
    (primProc : GrPrimitiveProcessor) (pipelineInfo : PipelineInfo)
    (h : (ext.setupPipeline pipelineInfo).mustSkip = true) :
    setupPipelineAndShouldDrawProc ext tc primProc pipelineInfo = (tc, false) := by
  simp [setupPipelineAndShouldDrawProc, h]

theorem setupBatch_skip (ext : Externals) (tc : GrTargetCommands)
    (batch : GrBatch) (pipelineInfo : PipelineInfo)
    (h : (ext.setupPipeline pipelineInfo).mustSkip = true) :
    setupPipelineAndShouldDrawBatch ext tc batch pipelineInfo = (tc, batch, false) := by
  simp [setupPipelineAndShouldDrawBatch, h]

/-- C9: a clear request passing no explicit rectangle against a render
target of width W and height H records a `Clear` record whose rectangle is
exactly `[0, 0] x [W, H]`. -/
theorem recordClear_null_rect_full_target (tc : GrTargetCommands) (color : GrColor)
    (canIgnoreRect : Bool) (renderTarget : GrRenderTarget) :
    (recordClear tc none color canIgnoreRect renderTarget).1.fCmdBuffer
      = tc.fCmdBuffer ++ [Cmd.clear renderTarget
          ⟨0, 0, renderTarget.width, renderTarget.height⟩ color canIgnoreRect] := rfl

/-- C10: a clear recorded through the public `recordClear` whose color
equals the reserved sentinel `GrColor_ILLEGAL` is not rejected; the record
it appends dispatches the backend's discard, not its clear, when executed
or flushed. -/
theorem recordClear_sentinel_color_discards (tc : GrTargetCommands) (rect : Option SkIRect)
    (canIgnoreRect : Bool) (renderTarget : GrRenderTarget) (st : Option SetState) :
    (recordClear tc rect GrColor_ILLEGAL canIgnoreRect renderTarget).1.fCmdBuffer
        = tc.fCmdBuffer ++ [(recordClear tc rect GrColor_ILLEGAL canIgnoreRect renderTarget).2] ∧
    Cmd.execute (recordClear tc rect GrColor_ILLEGAL canIgnoreRect renderTarget).2 st
        = [BackendCall.discard renderTarget] ∧
    flushLoop [(recordClear tc rect GrColor_ILLEGAL canIgnoreRect renderTarget).2] none
        = [BackendCall.discard renderTarget] := by
  cases rect <;>
    simp [recordClear, appendCmd, Cmd.execute, flushLoop, flushRecord, nextState]

/-- C8: a discard request is recorded as a `Clear` record carrying the
sentinel color; executing or flushing that record dispatches the backend's
discard and never its clear, while a `Clear` record whose color differs
from the sentinel dispatches the backend's clear with its rect, color and
ignore-rect flag. -/
theorem discard_sentinel_dispatch (tc : GrTargetCommands) (renderTarget : GrRenderTarget)
    (st : Option SetState) (rect : SkIRect) (color : GrColor) (canIgnoreRect : Bool)
    (hc : color ≠ GrColor_ILLEGAL) :
    (recordDiscard tc renderTarget).1.fCmdBuffer
        = tc.fCmdBuffer ++ [Cmd.clear renderTarget ⟨0, 0, 0, 0⟩ GrColor_ILLEGAL false] ∧
    Cmd.execute (Cmd.clear renderTarget ⟨0, 0, 0, 0⟩ GrColor_ILLEGAL false) st
        = [BackendCall.discard renderTarget] ∧
    flushLoop [Cmd.clear renderTarget ⟨0, 0, 0, 0⟩ GrColor_ILLEGAL false] none
        = [BackendCall.discard renderTarget] ∧
    Cmd.execute (Cmd.clear renderTarget rect color canIgnoreRect) st
        = [BackendCall.clear rect color canIgnoreRect renderTarget] := by
  refine ⟨rfl, ?_, ?_, ?_⟩ <;>
    simp [Cmd.execute, flushLoop, flushRecord, nextState, hc]

theorem discard_sentinel_dispatch_witness :
    (0 : GrColor) ≠ GrColor_ILLEGAL ∧
    ((recordDiscard resetCommands rtW).1.fCmdBuffer
        = resetCommands.fCmdBuffer ++ [Cmd.clear rtW ⟨0, 0, 0, 0⟩ GrColor_ILLEGAL false] ∧
     Cmd.execute (Cmd.clear rtW ⟨0, 0, 0, 0⟩ GrColor_ILLEGAL false) none
        = [BackendCall.discard rtW] ∧
     flushLoop [Cmd.clear rtW ⟨0, 0, 0, 0⟩ GrColor_ILLEGAL false] none
        = [BackendCall.discard rtW] ∧
     Cmd.execute (Cmd.clear rtW ⟨0, 0, 1, 1⟩ 0 false) none
        = [BackendCall.clear ⟨0, 0, 1, 1⟩ 0 false rtW]) :=
  ⟨by decide, discard_sentinel_dispatch resetCommands rtW none ⟨0, 0, 1, 1⟩ 0 false (by decide)⟩

/-- C5: a `recordDrawBatch`, `recordDrawPath` or `recordDrawPaths` request
whose materialized pipeline must be skipped discards the candidate state
record, leaves the recorder exactly as it was, and returns no command. -/
theorem record_mustSkip_no_command (ext : Externals) (tc : GrTargetCommands)
    (batch : GrBatch) (pathProc : GrPrimitiveProcessor) (path : Nat) (pathRange : Nat)
    (savedIndices : Nat) (indexType : PathIndexType) (savedTransforms : Nat)
    (transformType : PathTransformType) (count : Nat)
    (stencilSettings : GrStencilSettings) (pipelineInfo : PipelineInfo)
    (h : (ext.setupPipeline pipelineInfo).mustSkip = true) :
    recordDrawBatch ext tc batch pipelineInfo = (tc, none) ∧
    recordDrawPath ext tc pathProc path stencilSettings pipelineInfo = (tc, none) ∧
    recordDrawPaths ext tc pathProc pathRange savedIndices indexType savedTransforms
      transformType count stencilSettings pipelineInfo = (tc, none) := by
  refine ⟨?_, ?_, ?_⟩ <;>
    simp [recordDrawBatch, recordDrawPath, recordDrawPaths,
      setupPipelineAndShouldDrawProc, setupPipelineAndShouldDrawBatch, h]

theorem record_mustSkip_no_command_witness :
    (ext0.setupPipeline 100).mustSkip = true ∧
    (recordDrawBatch ext0 tcW batchW 100 = (tcW, none) ∧
     recordDrawPath ext0 tcW ppW 5 windingStencil 100 = (tcW, none) ∧
     recordDrawPaths ext0 tcW ppW 1 6 PathIndexType.kU16 6 PathTransformType.kTranslate
       5 windingStencil 100 = (tcW, none)) :=
  ⟨by decide, record_mustSkip_no_command ext0 tcW batchW ppW 5 1 6 PathIndexType.kU16 6
    PathTransformType.kTranslate 5 windingStencil 100 (by decide)⟩

theorem flushRecord_draw_count (c : Cmd) (st : Option SetState) :
    (flushRecord c st).countP BackendCall.isDrawDispatch
      = (if Cmd.isDrawFamily c then 1 else 0) := by
  cases c <;>
    simp [flushRecord, Cmd.execute, Cmd.isDrawFamily, BackendCall.isDrawDispatch,
      List.countP_cons]
  case setState ss =>
    cases h : ss.fPrimitiveProcessor <;> simp [BackendCall.isDrawDispatch]
  case clear rt r color canIgnoreRect =>
    by_cases h : color = GrColor_ILLEGAL <;> simp [h, BackendCall.isDrawDispatch]

theorem flushLoop_append (l1 l2 : List Cmd) (cur : Option SetState) :
    flushLoop (l1 ++ l2) cur = flushLoop l1 cur ++ flushLoop l2 (stateAfter l1 cur) := by
  induction l1 generalizing cur with
  | nil => simp [flushLoop, stateAfter]
  | cons c rest ih => simp [flushLoop, stateAfter, ih, List.append_assoc]

theorem flushLoop_draw_count (buf : List Cmd) (cur : Option SetState) :
    (flushLoop buf cur).countP BackendCall.isDrawDispatch
      = buf.countP Cmd.isDrawFamily := by
  induction buf generalizing cur with
  | nil => simp [flushLoop]
  | cons c rest ih =>
    simp only [flushLoop, List.countP_append, List.countP_cons, ih,
      flushRecord_draw_count]
    by_cases h : Cmd.isDrawFamily c
    · simp [h]
      omega
    · simp [h]

/-- C4: on a non-empty buffer, flush is the single in-order traversal of the
recorded (post-merge) records -- it distributes over concatenation with the
threaded current state, so every record is visited exactly once in order --
and the number of backend draw-family dispatches it issues equals the number
of surviving draw-family records in the buffer. -/
theorem flush_in_order_once_draw_dispatch_count (tc : GrTargetCommands)
    (h : tc.fCmdBuffer ≠ []) :
    flush tc = flushLoop tc.fCmdBuffer none ∧
    (∀ l1 l2 : List Cmd, ∀ cur : Option SetState,
      flushLoop (l1 ++ l2) cur = flushLoop l1 cur ++ flushLoop l2 (stateAfter l1 cur)) ∧
    (flush tc).countP BackendCall.isDrawDispatch
      = tc.fCmdBuffer.countP Cmd.isDrawFamily := by
  refine ⟨by simp [flush, h], fun l1 l2 cur => flushLoop_append l1 l2 cur, ?_⟩
  simp [flush, h, flushLoop_draw_count]

theorem flush_in_order_once_draw_dispatch_count_witness :
    tcF.fCmdBuffer ≠ [] ∧
    (flush tcF = flushLoop tcF.fCmdBuffer none ∧
     (∀ l1 l2 : List Cmd, ∀ cur : Option SetState,
       flushLoop (l1 ++ l2) cur = flushLoop l1 cur ++ flushLoop l2 (stateAfter l1 cur)) ∧
     (flush tcF).countP BackendCall.isDrawDispatch
       = tcF.fCmdBuffer.countP Cmd.isDrawFamily) :=
  ⟨by decide, flush_in_order_once_draw_dispatch_count tcF (by decide)⟩

theorem length_replaceBack {buf : List Cmd} {c' : Cmd} (c : Cmd)
    (h : cmdBack buf = some c') :
    (replaceBack buf c).length = buf.length := by
  obtain ⟨ys, rfl⟩ := List.getLast?_eq_some_iff.mp h
  simp [replaceBack, List.dropLast_concat]

/-- C6: after a non-skipped state resolution (`setupPipelineAndShouldDraw`
returned the recorder `t1` and initialized batch `b1` with should-draw
true), `recordDrawBatch` appends a new `DrawBatch` record when the tail is
not a `DrawBatch` record or no batch is tracked; otherwise it attempts
combination with the tracked batch -- on success the tail is reused in
place (no new record: the buffer keeps its length) and the tracked
reference stays on the tail's (absorbed) batch, and on failure a new
`DrawBatch` record is appended and tracked. -/
theorem recordDrawBatch_tail_combine_policy (ext : Externals) (tc t1 : GrTargetCommands)
    (batch b1 : GrBatch) (pipelineInfo : PipelineInfo)
    (ht1 : setupPipelineAndShouldDrawBatch ext tc batch pipelineInfo = (t1, b1, true)) :
    ((∀ tb : GrBatch, cmdBack t1.fCmdBuffer ≠ some (Cmd.drawBatch tb)) ∨
        t1.fDrawBatch = none →
      recordDrawBatch ext tc batch pipelineInfo
        = ({ t1 with fCmdBuffer := t1.fCmdBuffer ++ [Cmd.drawBatch b1],
                     fDrawBatch := some b1 }, some (Cmd.drawBatch b1))) ∧
    (∀ tb tracked combined : GrBatch,
      cmdBack t1.fCmdBuffer = some (Cmd.drawBatch tb) →
      t1.fDrawBatch = some tracked →
      ext.combineIfPossible tracked b1 = some combined →
      recordDrawBatch ext tc batch pipelineInfo
        = ({ t1 with fCmdBuffer := replaceBack t1.fCmdBuffer (Cmd.drawBatch combined),
                     fDrawBatch := some combined }, some (Cmd.drawBatch combined)) ∧
      (replaceBack t1.fCmdBuffer (Cmd.drawBatch combined)).length
        = t1.fCmdBuffer.length) ∧
    (∀ tb tracked : GrBatch,
      cmdBack t1.fCmdBuffer = some (Cmd.drawBatch tb) →
      t1.fDrawBatch = some tracked →
      ext.combineIfPossible tracked b1 = none →
      recordDrawBatch ext tc batch pipelineInfo
        = ({ t1 with fCmdBuffer := t1.fCmdBuffer ++ [Cmd.drawBatch b1],
                     fDrawBatch := some b1 }, some (Cmd.drawBatch b1))) := by
  refine ⟨?_, ?_, ?_⟩
  · intro hcase
    rcases hb : cmdBack t1.fCmdBuffer with _ | c
    · simp [recordDrawBatch, ht1, hb]
    · cases c <;> try simp [recordDrawBatch, ht1, hb]
      case drawBatch tb =>
        rcases hcase with hL | hR
        · exact absurd hb (hL tb)
        · simp [recordDrawBatch, ht1, hb, hR]
  · intro tb tracked combined hb hd hcomb
    exact ⟨by simp [recordDrawBatch, ht1, hb, hd, hcomb],
      length_replaceBack (Cmd.drawBatch combined) hb⟩
  · intro tb tracked hb hd hcomb
    simp [recordDrawBatch, ht1, hb, hd, hcomb]

theorem recordDrawBatch_tail_combine_policy_witness :
    setupPipelineAndShouldDrawBatch ext0 tcB batchW2 2 = (tcB, batchW2, true) ∧
    (((∀ tb : GrBatch, cmdBack tcB.fCmdBuffer ≠ some (Cmd.drawBatch tb)) ∨
        tcB.fDrawBatch = none →
      recordDrawBatch ext0 tcB batchW2 2
        = ({ tcB with fCmdBuffer := tcB.fCmdBuffer ++ [Cmd.drawBatch batchW2],
                      fDrawBatch := some batchW2 }, some (Cmd.drawBatch batchW2))) ∧
     (∀ tb tracked combined : GrBatch,
       cmdBack tcB.fCmdBuffer = some (Cmd.drawBatch tb) →
       tcB.fDrawBatch = some tracked →
       ext0.combineIfPossible tracked batchW2 = some combined →
       recordDrawBatch ext0 tcB batchW2 2
         = ({ tcB with fCmdBuffer := replaceBack tcB.fCmdBuffer (Cmd.drawBatch combined),
                       fDrawBatch := some combined }, some (Cmd.drawBatch combined)) ∧
       (replaceBack tcB.fCmdBuffer (Cmd.drawBatch combined)).length
         = tcB.fCmdBuffer.length) ∧
     (∀ tb tracked : GrBatch,
       cmdBack tcB.fCmdBuffer = some (Cmd.drawBatch tb) →
       tcB.fDrawBatch = some tracked →
       ext0.combineIfPossible tracked batchW2 = none →
       recordDrawBatch ext0 tcB batchW2 2
         = ({ tcB with fCmdBuffer := tcB.fCmdBuffer ++ [Cmd.drawBatch batchW2],
                       fDrawBatch := some batchW2 }, some (Cmd.drawBatch batchW2)))) :=
  ⟨by decide, recordDrawBatch_tail_combine_policy ext0 tcB tcB batchW2 batchW2 2 (by decide)⟩


theorem setupProc_shouldDraw_prevSome (ext : Externals) (tc : GrTargetCommands)
    (primProc : GrPrimitiveProcessor) (pipelineInfo : PipelineInfo) :
    (setupPipelineAndShouldDrawProc ext tc primProc pipelineInfo).2 = false ∨
    (setupPipelineAndShouldDrawProc ext tc primProc pipelineInfo).1.fPrevState.isSome
      = true := by
  unfold setupPipelineAndShouldDrawProc
  by_cases h : (ext.setupPipeline pipelineInfo).mustSkip
  · simp [h]
  · simp only [h, if_false, Bool.false_eq_true]
    rcases hp : tc.fPrevState with _ | prev
    · simp [appendState]
    · obtain ⟨pp, pl, bt⟩ := prev
      rcases pp with _ | p0
      · simp [appendState]
      · dsimp only
        split <;> simp [appendState, hp]

theorem setupBatch_shouldDraw_prevSome (ext : Externals) (tc : GrTargetCommands)
    (batch : GrBatch) (pipelineInfo : PipelineInfo) :
    (setupPipelineAndShouldDrawBatch ext tc batch pipelineInfo).2.2 = false ∨
    (setupPipelineAndShouldDrawBatch ext tc batch pipelineInfo).1.fPrevState.isSome
      = true := by
  unfold setupPipelineAndShouldDrawBatch
  by_cases h : (ext.setupPipeline pipelineInfo).mustSkip
  · simp [h]
  · simp only [h, if_false, Bool.false_eq_true]
    rcases hp : tc.fPrevState with _ | prev
    · simp [appendState]
    · obtain ⟨pp, pl, bt⟩ := prev
      rcases pp with _ | p0
      · dsimp only
        split <;> simp [appendState, hp]
      · simp [appendState]

theorem recordDrawPath_prevState (ext : Externals) (tc : GrTargetCommands)
    (pathProc : GrPrimitiveProcessor) (path : Nat)
    (stencilSettings : GrStencilSettings) (pipelineInfo : PipelineInfo) :
    (recordDrawPath ext tc pathProc path stencilSettings pipelineInfo).1.fPrevState
      = (setupPipelineAndShouldDrawProc ext tc pathProc pipelineInfo).1.fPrevState := by
  rcases hs : setupPipelineAndShouldDrawProc ext tc pathProc pipelineInfo with ⟨tc1, b⟩
  cases b <;> simp [recordDrawPath, hs, appendCmd]

theorem recordDrawPaths_prevState (ext : Externals) (tc : GrTargetCommands)
    (pathProc : GrPrimitiveProcessor) (pathRange : Nat) (savedIndices : Nat)
    (indexType : PathIndexType) (savedTransforms : Nat)
    (transformType : PathTransformType) (count : Nat)
    (stencilSettings : GrStencilSettings) (pipelineInfo : PipelineInfo) :
    (recordDrawPaths ext tc pathProc pathRange savedIndices indexType savedTransforms
      transformType count stencilSettings pipelineInfo).1.fPrevState
      = (setupPipelineAndShouldDrawProc ext tc pathProc pipelineInfo).1.fPrevState := by
  rcases hs : setupPipelineAndShouldDrawProc ext tc pathProc pipelineInfo with ⟨tc1, b⟩
  cases b
  · simp [recordDrawPaths, hs]
  · simp only [recordDrawPaths, hs]
    split
    · split_ifs <;> simp [appendCmd]
    · simp [appendCmd]

theorem recordDrawBatch_prevState (ext : Externals) (tc : GrTargetCommands)
    (batch : GrBatch) (pipelineInfo : PipelineInfo) :
    (recordDrawBatch ext tc batch pipelineInfo).1.fPrevState
      = (setupPipelineAndShouldDrawBatch ext tc batch pipelineInfo).1.fPrevState := by
  rcases hs : setupPipelineAndShouldDrawBatch ext tc batch pipelineInfo with ⟨tc1, b1, b⟩
  cases b
  · simp [recordDrawBatch, hs]
  · simp only [recordDrawBatch, hs]
    split
    · split <;> simp
    · simp

/-- C7 counterexample: on a fresh recorder, a `recordStencilPath` request
appends its `StencilPath` record -- a draw-family record -- with no state
resolution at all: the buffer contains no state record (so none precedes
the stencil record by flush time) and the recorder's previous-state
reference stays unset. -/
theorem recordStencilPath_no_state_resolution_cex :
    (recordStencilPath resetCommands pbW ppW 5 0 windingStencil).1.fCmdBuffer
      = [Cmd.stencilPath ⟨5, rtW, 0, false, 0, windingStencil⟩] ∧
    (recordStencilPath resetCommands pbW ppW 5 0 windingStencil).1.fPrevState = none ∧
    (recordStencilPath resetCommands pbW ppW 5 0 windingStencil).1.fCmdBuffer.countP
      Cmd.isSetState = 0 ∧
    Cmd.isDrawFamily (Cmd.stencilPath ⟨5, rtW, 0, false, 0, windingStencil⟩) = true := by
  decide

/-- C7 (amended): `DrawPath`, `DrawPaths` and `DrawBatch` requests resolve
the active state before appending their record -- whenever such a request
returns a command, the recorder holds a resolved previous state -- while a
`StencilPath` request appends its record directly, resolving no state (the
previous-state reference is untouched), and `StencilPath` execution never
consults the active state. -/
theorem state_resolution_per_draw_family (ext : Externals) (tc : GrTargetCommands)
    (pipelineBuilder : GrPipelineBuilder) (pathProc : GrPrimitiveProcessor)
    (path : Nat) (scissorState : Nat) (stencilSettings : GrStencilSettings)
    (pipelineInfo : PipelineInfo) (r : DrawPathsReq) (batch : GrBatch)
    (sp : StencilPathRec) (st : Option SetState) :
    ((recordStencilPath tc pipelineBuilder pathProc path scissorState
        stencilSettings).1.fCmdBuffer
      = tc.fCmdBuffer ++ [Cmd.stencilPath
          ⟨path, pipelineBuilder.renderTarget, scissorState,
            pipelineBuilder.isHWAntialias, pathProc.viewMatrix, stencilSettings⟩] ∧
     (recordStencilPath tc pipelineBuilder pathProc path scissorState
        stencilSettings).1.fPrevState = tc.fPrevState) ∧
    Cmd.execute (Cmd.stencilPath sp) st
      = [BackendCall.stencilPath sp.path sp.renderTarget] ∧
    ((recordDrawPath ext tc pathProc path stencilSettings pipelineInfo).2 = none ∨
      (recordDrawPath ext tc pathProc path stencilSettings
        pipelineInfo).1.fPrevState.isSome = true) ∧
    ((recordDrawPathsReq ext tc r).2 = none ∨
      (recordDrawPathsReq ext tc r).1.fPrevState.isSome = true) ∧
    ((recordDrawBatch ext tc batch pipelineInfo).2 = none ∨
      (recordDrawBatch ext tc batch pipelineInfo).1.fPrevState.isSome = true) := by
  refine ⟨⟨rfl, rfl⟩, rfl, ?_, ?_, ?_⟩
  · rcases hs : setupPipelineAndShouldDrawProc ext tc pathProc pipelineInfo with ⟨tc1, b⟩
    cases b
    · left
      simp [recordDrawPath, hs]
    · right
      rw [recordDrawPath_prevState ext tc pathProc path stencilSettings pipelineInfo]
      rcases setupProc_shouldDraw_prevSome ext tc pathProc pipelineInfo with h | h
      · rw [hs] at h
        simp at h
      · exact h
  · rcases hs : setupPipelineAndShouldDrawProc ext tc r.pathProc r.pipelineInfo with ⟨tc1, b⟩
    cases b
    · left
      simp [recordDrawPathsReq, recordDrawPaths, hs]
    · right
      rw [recordDrawPathsReq, recordDrawPaths_prevState]
      rcases setupProc_shouldDraw_prevSome ext tc r.pathProc r.pipelineInfo with h | h
      · rw [hs] at h
        simp at h
      · exact h
  · rcases hs : setupPipelineAndShouldDrawBatch ext tc batch pipelineInfo with ⟨tc1, b1, b⟩
    cases b
    · left
      simp [recordDrawBatch, hs]
    · right
      rw [recordDrawBatch_prevState ext tc batch pipelineInfo]
      rcases setupBatch_shouldDraw_prevSome ext tc batch pipelineInfo with h | h
      · rw [hs] at h
        simp at h
      · exact h

theorem cmdBack_concat (l : List Cmd) (c : Cmd) : cmdBack (l ++ [c]) = some c := by
  simp [cmdBack, List.getLast?_concat]

theorem setupProc_fresh (ext : Externals) (tc : GrTargetCommands)
    (primProc : GrPrimitiveProcessor) (pipelineInfo : PipelineInfo)
    (h0 : tc.fPrevState = none)
    (h : (ext.setupPipeline pipelineInfo).mustSkip = false) :
    setupPipelineAndShouldDrawProc ext tc primProc pipelineInfo
      = (appendState tc (mkProcState ext primProc pipelineInfo), true) := by
  simp [setupPipelineAndShouldDrawProc, h, h0]

theorem setupProc_dedup (ext : Externals) (tc : GrTargetCommands)
    (primProc : GrPrimitiveProcessor) (pipelineInfo : PipelineInfo)
    (ps : SetState) (p0 : GrPrimitiveProcessor)
    (h0 : tc.fPrevState = some ps) (hp : ps.fPrimitiveProcessor = some p0)
    (hcan : ext.canMakeEqual p0 ps.fBatchTracker primProc
      (ext.initBatchTracker primProc (ext.setupPipeline pipelineInfo).initBatchTracker)
      = true)
    (hpipe : ext.pipelinesEqual ps.pipeline (ext.setupPipeline pipelineInfo) = true)
    (h : (ext.setupPipeline pipelineInfo).mustSkip = false) :
    setupPipelineAndShouldDrawProc ext tc primProc pipelineInfo = (tc, true) := by
  simp [setupPipelineAndShouldDrawProc, h, h0, hp, hcan, hpipe]

theorem setupBatch_fresh (ext : Externals) (tc : GrTargetCommands)
    (batch : GrBatch) (pipelineInfo : PipelineInfo)
    (h0 : tc.fPrevState = none)
    (h : (ext.setupPipeline pipelineInfo).mustSkip = false) :
    setupPipelineAndShouldDrawBatch ext tc batch pipelineInfo
      = (appendState tc (mkBatchState ext pipelineInfo),
         ext.batchInitTracker batch (ext.setupPipeline pipelineInfo).initBatchTracker,
         true) := by
  simp [setupPipelineAndShouldDrawBatch, h, h0]

theorem setupBatch_dedup (ext : Externals) (tc : GrTargetCommands)
    (batch : GrBatch) (pipelineInfo : PipelineInfo) (ps : SetState)
    (h0 : tc.fPrevState = some ps) (hp : ps.fPrimitiveProcessor = none)
    (hpipe : ext.pipelinesEqual ps.pipeline (ext.setupPipeline pipelineInfo) = true)
    (h : (ext.setupPipeline pipelineInfo).mustSkip = false) :
    setupPipelineAndShouldDrawBatch ext tc batch pipelineInfo
      = (tc,
         ext.batchInitTracker batch (ext.setupPipeline pipelineInfo).initBatchTracker,
         true) := by
  simp [setupPipelineAndShouldDrawBatch, h, h0, hp, hpipe]

theorem recordReq_fresh (ext : Externals) (tc : GrTargetCommands) (req : DrawReq)
    (h0 : tc.fPrevState = none)
    (hskip : (ext.setupPipeline (DrawReq.pipelineInfo req)).mustSkip = false) :
    (recordReq ext tc req).1.fCmdBuffer.countP Cmd.isSetState
      = tc.fCmdBuffer.countP Cmd.isSetState + 1 ∧
    (recordReq ext tc req).1.fPrevState = some (resolvedState ext req) := by
  cases req with
  | path pp path st info =>
    have hsetup := setupProc_fresh ext tc pp info h0 hskip
    constructor <;>
      simp [recordReq, recordDrawPath, hsetup, appendState, appendCmd,
        List.countP_append, List.countP_cons, Cmd.isSetState, resolvedState]
  | paths r =>
    have hskip' : (ext.setupPipeline r.pipelineInfo).mustSkip = false := hskip
    have hsetup := setupProc_fresh ext tc r.pathProc r.pipelineInfo h0 hskip'
    constructor <;>
      simp [recordReq, recordDrawPathsReq, recordDrawPaths, hsetup, cmdBack_concat,
        appendState, appendCmd, List.countP_append, List.countP_cons,
        Cmd.isSetState, resolvedState]
  | batch b info =>
    have hskip' : (ext.setupPipeline info).mustSkip = false := hskip
    have hsetup := setupBatch_fresh ext tc b info h0 hskip'
    constructor <;>
      simp [recordReq, recordDrawBatch, hsetup, cmdBack_concat, appendState,
        appendCmd, List.countP_append, List.countP_cons, Cmd.isSetState,
        resolvedState]

theorem recordReq_dedup (ext : Externals) (tc : GrTargetCommands) (req : DrawReq)
    (ps : SetState)
    (h0 : tc.fPrevState = some ps)
    (hskip : (ext.setupPipeline (DrawReq.pipelineInfo req)).mustSkip = false)
    (heq : stateRecordsEqual ext ps (resolvedState ext req) = true) :
    (recordReq ext tc req).1.fCmdBuffer.countP Cmd.isSetState
      = tc.fCmdBuffer.countP Cmd.isSetState ∧
    (recordReq ext tc req).1.fPrevState = some ps := by
  cases req with
  | path pp path st info =>
    rcases hp : ps.fPrimitiveProcessor with _ | p0
    · simp [stateRecordsEqual, resolvedState, mkProcState, hp] at heq
    · simp only [stateRecordsEqual, resolvedState, mkProcState, hp] at heq
      rw [Bool.and_eq_true] at heq
      obtain ⟨hcan, hpipe⟩ := heq
      have hsetup := setupProc_dedup ext tc pp info ps p0 h0 hp hcan hpipe hskip
      constructor <;>
        simp [recordReq, recordDrawPath, hsetup, appendCmd, List.countP_append,
          List.countP_cons, Cmd.isSetState, h0]
  | paths r =>
    rcases hp : ps.fPrimitiveProcessor with _ | p0
    · simp [stateRecordsEqual, resolvedState, mkProcState, hp] at heq
    · simp only [stateRecordsEqual, resolvedState, mkProcState, hp] at heq
      rw [Bool.and_eq_true] at heq
      obtain ⟨hcan, hpipe⟩ := heq
      have hsetup := setupProc_dedup ext tc r.pathProc r.pipelineInfo ps p0 h0 hp
        hcan hpipe hskip
      simp only [recordReq, recordDrawPathsReq, recordDrawPaths, hsetup]
      split
      next previous hb =>
        split_ifs with h1 h2
        · constructor
          · simpa using countP_replaceBack Cmd.isSetState
              (Cmd.drawPaths { previous with fCount := previous.fCount + r.count }) hb rfl
          · simp [h0]
        · constructor <;>
            simp [appendCmd, List.countP_append, List.countP_cons, Cmd.isSetState, h0]
        · constructor <;>
            simp [appendCmd, List.countP_append, List.countP_cons, Cmd.isSetState, h0]
      next =>
        constructor <;>
          simp [appendCmd, List.countP_append, List.countP_cons, Cmd.isSetState, h0]
  | batch b info =>
    rcases hp : ps.fPrimitiveProcessor with _ | p0
    · simp only [stateRecordsEqual, resolvedState, mkBatchState, hp] at heq
      have hsetup := setupBatch_dedup ext tc b info ps h0 hp heq hskip
      simp only [recordReq, recordDrawBatch, hsetup]
      split
      next fb tracked hb hd =>
        split
        next combined hc =>
          constructor
          · simpa using countP_replaceBack Cmd.isSetState (Cmd.drawBatch combined) hb rfl
          · simp [h0]
        next hc =>
          constructor <;>
            simp [appendCmd, List.countP_append, List.countP_cons, Cmd.isSetState, h0]
      next =>
        constructor <;>
          simp [appendCmd, List.countP_append, List.countP_cons, Cmd.isSetState, h0]
    · simp [stateRecordsEqual, resolvedState, mkBatchState, hp] at heq

/-- C3: starting from a recorder with no previous state, two consecutive
draw-family requests (among those that resolve states) whose resolved state
records compare equal for dedup purposes -- both have a primitive and the
primitive layer reports them interchangeable given their tracking data with
equal materialized pipelines, or both lack a primitive with equal pipelines
-- produce exactly one state record: the second candidate is discarded and
the first request's state stays the active one. -/
theorem consecutive_equal_states_dedup (ext : Externals) (tc : GrTargetCommands)
    (r1 r2 : DrawReq)
    (h0 : tc.fPrevState = none)
    (h1 : (ext.setupPipeline (DrawReq.pipelineInfo r1)).mustSkip = false)
    (h2 : (ext.setupPipeline (DrawReq.pipelineInfo r2)).mustSkip = false)
    (heq : stateRecordsEqual ext (resolvedState ext r1) (resolvedState ext r2) = true) :
    (recordReq ext (recordReq ext tc r1).1 r2).1.fCmdBuffer.countP Cmd.isSetState
      = tc.fCmdBuffer.countP Cmd.isSetState + 1 ∧
    (recordReq ext (recordReq ext tc r1).1 r2).1.fPrevState
      = some (resolvedState ext r1) := by
  obtain ⟨hc1, hp1⟩ := recordReq_fresh ext tc r1 h0 h1
  obtain ⟨hc2, hp2⟩ := recordReq_dedup ext (recordReq ext tc r1).1 r2
    (resolvedState ext r1) hp1 h2 heq
  exact ⟨by rw [hc2, hc1], by rw [hp2]⟩

theorem consecutive_equal_states_dedup_witness :
    resetCommands.fPrevState = none ∧
    (ext0.setupPipeline (DrawReq.pipelineInfo reqA)).mustSkip = false ∧
    (ext0.setupPipeline (DrawReq.pipelineInfo reqB)).mustSkip = false ∧
    stateRecordsEqual ext0 (resolvedState ext0 reqA) (resolvedState ext0 reqB) = true ∧
    ((recordReq ext0 (recordReq ext0 resetCommands reqA).1 reqB).1.fCmdBuffer.countP
        Cmd.isSetState = resetCommands.fCmdBuffer.countP Cmd.isSetState + 1 ∧
     (recordReq ext0 (recordReq ext0 resetCommands reqA).1 reqB).1.fPrevState
        = some (resolvedState ext0 reqA)) :=
  ⟨by decide, by decide, by decide, by decide,
   consecutive_equal_states_dedup ext0 resetCommands reqA reqB (by decide) (by decide)
     (by decide) (by decide)⟩

/-- C1 counterexample: two consecutive `recordDrawPaths` requests that share
path-range identity, index and transform element types and stencil
configuration, with a winding fill, no destination blending, and
pool-contiguous storage -- every condition the claim lists -- yet the
second request is NOT folded: its pipeline description materializes a
different (unequal) pipeline, so a fresh state record is interposed, the
tail is no longer the `DrawPaths` record, a command is returned, and the
buffer ends up with two `DrawPaths` records of counts 3 and 5 instead of
one of count 8. -/
theorem recordDrawPaths_merge_needs_state_dedup_cex :
    cmdBack step1tc.fCmdBuffer
      = some (Cmd.drawPaths ⟨1, 0, PathIndexType.kU16, 0, PathTransformType.kTranslate,
          3, windingStencil⟩) ∧
    path_fill_type_is_winding windingStencil = true ∧
    ext0.willBlendWithDst 2 ppW = false ∧
    (0 + 3 * PathIndexSizeInBytes PathIndexType.kU16 = 6 ∧
      0 + 3 * PathTransformSize PathTransformType.kTranslate = 6) ∧
    (recordDrawPaths ext0 step1tc ppW 1 6 PathIndexType.kU16 6
        PathTransformType.kTranslate 5 windingStencil 2).2 ≠ none ∧
    drawPathsCounts (recordDrawPaths ext0 step1tc ppW 1 6 PathIndexType.kU16 6
        PathTransformType.kTranslate 5 windingStencil 2).1.fCmdBuffer = [3, 5] := by
  decide

theorem recordDrawPathsReq_folds (ext : Externals) (tc : GrTargetCommands)
    (r : DrawPathsReq) (previous : DrawPathsRec)
    (htail : cmdBack tc.fCmdBuffer = some (Cmd.drawPaths previous))
    (hfold : foldsIntoTail ext tc r = true) :
    recordDrawPathsReq ext tc r
      = ({ tc with fCmdBuffer := (replaceBack tc.fCmdBuffer
            (Cmd.drawPaths { previous with fCount := previous.fCount + r.count })) },
         none) := by
  rcases hp : tc.fPrevState with _ | ps
  · simp [foldsIntoTail, hp, htail] at hfold
  · rcases hpp : ps.fPrimitiveProcessor with _ | p0
    · simp [foldsIntoTail, hp, htail, hpp] at hfold
    · simp only [foldsIntoTail, hp, htail, hpp, Bool.and_eq_true, Bool.not_eq_true',
        decide_eq_true_eq, Bool.or_eq_true] at hfold
      obtain ⟨⟨⟨⟨⟨⟨⟨⟨⟨⟨hskip, hcan⟩, hpipe⟩, hrange⟩, hidx⟩, hxf⟩, hstencil⟩, hwind⟩,
        hblend⟩, hcontig⟩, hxcontig⟩ := hfold
      have hsetup := setupProc_dedup ext tc r.pathProc r.pipelineInfo ps p0 hp hpp
        hcan hpipe hskip
      simp only [recordDrawPathsReq, recordDrawPaths, hsetup, htail]
      rw [if_pos ⟨hrange, hidx, hxf, hstencil, hwind, hblend⟩,
        if_pos ⟨hcontig, hxcontig⟩, hp]

/-- C1 (amended): for a sequence of consecutive `recordDrawPaths` requests
each of which satisfies the full fold conditions against the tail reached so
far -- shared path range, index and transform element types and stencil
configuration, winding fill, no destination blending, pool-contiguous
storage, AND a non-skipped pipeline whose resolved state dedups against the
previous state record (so no state record is interposed) -- the recorder
folds every request into the single trailing `DrawPaths` record, returns no
command for any of them, appends no record (the buffer keeps its length),
and the trailing record's count grows by the sum of the request counts. -/
theorem recordDrawPaths_mergeChain_accumulates (ext : Externals) (tc : GrTargetCommands)
    (reqs : List DrawPathsReq) (previous : DrawPathsRec)
    (htail : cmdBack tc.fCmdBuffer = some (Cmd.drawPaths previous))
    (hchain : MergeChain ext tc reqs) :
    (recordDrawPathsSeq ext tc reqs).1.fCmdBuffer
      = replaceBack tc.fCmdBuffer
          (Cmd.drawPaths { previous with fCount := previous.fCount + sumCounts reqs }) ∧
    (recordDrawPathsSeq ext tc reqs).2 = reqs.map (fun _ => none) ∧
    (recordDrawPathsSeq ext tc reqs).1.fCmdBuffer.length = tc.fCmdBuffer.length := by
  induction reqs generalizing tc previous with
  | nil =>
    refine ⟨?_, rfl, rfl⟩
    have hprev : ({ previous with fCount := previous.fCount + sumCounts [] })
        = previous := by
      simp [sumCounts]
    rw [hprev, replaceBack_of_cmdBack htail]
    rfl
  | cons r rs ih =>
    cases hchain with
    | cons _ _ _ hfold hrest =>
      have hstep := recordDrawPathsReq_folds ext tc r previous htail hfold
      have htail' : cmdBack (recordDrawPathsReq ext tc r).1.fCmdBuffer
          = some (Cmd.drawPaths { previous with fCount := previous.fCount + r.count }) := by
        rw [hstep]
        exact cmdBack_replaceBack _ _
      obtain ⟨ihb, ihr, ihl⟩ := ih (recordDrawPathsReq ext tc r).1 _ htail' hrest
      refine ⟨?_, ?_, ?_⟩
      · simp only [recordDrawPathsSeq]
        rw [ihb, hstep]
        simp only [replaceBack_replaceBack]
        have hsum : sumCounts (r :: rs) = r.count + sumCounts rs := by
          simp [sumCounts]
        rw [hsum, Nat.add_assoc]
      · simp only [recordDrawPathsSeq, List.map]
        rw [ihr, hstep]
      · simp only [recordDrawPathsSeq]
        rw [ihl, hstep]
        exact length_replaceBack _ htail

theorem recordDrawPaths_mergeChain_accumulates_witness :
    cmdBack tcW.fCmdBuffer = some (Cmd.drawPaths prevW) ∧
    MergeChain ext0 tcW [r1W, r2W] ∧
    ((recordDrawPathsSeq ext0 tcW [r1W, r2W]).1.fCmdBuffer
        = replaceBack tcW.fCmdBuffer
            (Cmd.drawPaths { prevW with fCount := prevW.fCount + sumCounts [r1W, r2W] }) ∧
     (recordDrawPathsSeq ext0 tcW [r1W, r2W]).2 = [r1W, r2W].map (fun _ => none) ∧
     (recordDrawPathsSeq ext0 tcW [r1W, r2W]).1.fCmdBuffer.length
        = tcW.fCmdBuffer.length) := by
  have hchain : MergeChain ext0 tcW [r1W, r2W] :=
    MergeChain.cons _ _ _ (by decide)
      (MergeChain.cons _ _ _ (by decide) (MergeChain.nil _))
  exact ⟨by decide, hchain,
    recordDrawPaths_mergeChain_accumulates ext0 tcW [r1W, r2W] prevW (by decide) hchain⟩

theorem setupProc_snd (ext : Externals) (tc : GrTargetCommands)
    (primProc : GrPrimitiveProcessor) (pipelineInfo : PipelineInfo) :
    (setupPipelineAndShouldDrawProc ext tc primProc pipelineInfo).2
      = !(ext.setupPipeline pipelineInfo).mustSkip := by
  unfold setupPipelineAndShouldDrawProc
  by_cases hskip : (ext.setupPipeline pipelineInfo).mustSkip
  · simp [hskip]
  · simp only [hskip, Bool.false_eq_true, if_false, Bool.not_false]
    rcases hp : tc.fPrevState with _ | ps
    · simp
    · obtain ⟨pp, pl, bt⟩ := ps
      rcases pp with _ | p0
      · simp
      · dsimp only
        split <;> simp

theorem setupProc_buffer_extends (ext : Externals) (tc : GrTargetCommands)
    (primProc : GrPrimitiveProcessor) (pipelineInfo : PipelineInfo) :
    ∃ rest, (setupPipelineAndShouldDrawProc ext tc primProc pipelineInfo).1.fCmdBuffer
      = tc.fCmdBuffer ++ rest := by
  unfold setupPipelineAndShouldDrawProc
  by_cases hskip : (ext.setupPipeline pipelineInfo).mustSkip
  · exact ⟨[], by simp [hskip]⟩
  · simp only [hskip, Bool.false_eq_true, if_false]
    rcases hp : tc.fPrevState with _ | ps
    · exact ⟨[Cmd.setState (mkProcState ext primProc pipelineInfo)], by simp [appendState]⟩
    · obtain ⟨pp, pl, bt⟩ := ps
      rcases pp with _ | p0
      · exact ⟨[Cmd.setState (mkProcState ext primProc pipelineInfo)],
          by simp [appendState]⟩
      · dsimp only
        split
        · exact ⟨[], by simp⟩
        · exact ⟨[Cmd.setState (mkProcState ext primProc pipelineInfo)],
            by simp [appendState]⟩

/-- C2 counterexample: a `recordDrawPaths` request whose stencil
configuration derives an even-odd (non-winding) fill is indeed not merged,
but no new `DrawPaths` record is appended either when its pipeline must be
skipped: the recorder is left exactly as it was and no command is returned,
refuting the claim's unconditional "a new DrawPaths record is appended
instead". -/
theorem recordDrawPaths_nonwinding_skip_cex :
    path_fill_type_is_winding evenOddStencil = false ∧
    recordDrawPaths ext0 tcW ppW 1 6 PathIndexType.kU16 6 PathTransformType.kTranslate
      5 evenOddStencil 100 = (tcW, none) ∧
    (recordDrawPaths ext0 tcW ppW 1 6 PathIndexType.kU16 6 PathTransformType.kTranslate
      5 evenOddStencil 100).1.fCmdBuffer.length = tcW.fCmdBuffer.length := by
  decide

/-- C2 (amended): a `recordDrawPaths` request whose stencil configuration
derives a non-winding (even-odd) fill is never merged into the trailing
`DrawPaths` record, regardless of all other fields matching -- the existing
buffer is preserved as a prefix, untouched -- and, unless the pipeline must
be skipped (in which case nothing is recorded), a new `DrawPaths` record
carrying the request's own fields is appended and returned. -/
theorem recordDrawPaths_nonwinding_never_merges (ext : Externals)
    (tc : GrTargetCommands) (pathProc : GrPrimitiveProcessor) (pathRange : Nat)
    (savedIndices : Nat) (indexType : PathIndexType) (savedTransforms : Nat)
    (transformType : PathTransformType) (count : Nat)
    (stencilSettings : GrStencilSettings) (pipelineInfo : PipelineInfo)
    (hfill : path_fill_type_is_winding stencilSettings = false) :
    (∃ rest, (recordDrawPaths ext tc pathProc pathRange savedIndices indexType
        savedTransforms transformType count stencilSettings pipelineInfo).1.fCmdBuffer
      = tc.fCmdBuffer ++ rest) ∧
    ((ext.setupPipeline pipelineInfo).mustSkip = false →
      cmdBack (recordDrawPaths ext tc pathProc pathRange savedIndices indexType
          savedTransforms transformType count stencilSettings pipelineInfo).1.fCmdBuffer
        = some (Cmd.drawPaths ⟨pathRange, savedIndices, indexType, savedTransforms,
            transformType, count, stencilSettings⟩) ∧
      (recordDrawPaths ext tc pathProc pathRange savedIndices indexType
          savedTransforms transformType count stencilSettings pipelineInfo).2
        = some (Cmd.drawPaths ⟨pathRange, savedIndices, indexType, savedTransforms,
            transformType, count, stencilSettings⟩)) := by
  rcases hs : setupPipelineAndShouldDrawProc ext tc pathProc pipelineInfo with ⟨tc1, b⟩
  obtain ⟨rest0, hrest0⟩ : ∃ rest0, tc1.fCmdBuffer = tc.fCmdBuffer ++ rest0 := by
    have h := setupProc_buffer_extends ext tc pathProc pipelineInfo
    rwa [hs] at h
  cases b
  · have hskip : (ext.setupPipeline pipelineInfo).mustSkip = true := by
      have h := setupProc_snd ext tc pathProc pipelineInfo
      rw [hs] at h
      simpa using h.symm
    constructor
    · exact ⟨rest0, by simp [recordDrawPaths, hs, hrest0]⟩
    · intro hmust
      exact absurd hmust (by simp [hskip])
  · have hres : recordDrawPaths ext tc pathProc pathRange savedIndices indexType
        savedTransforms transformType count stencilSettings pipelineInfo
        = (appendCmd tc1 (Cmd.drawPaths ⟨pathRange, savedIndices, indexType,
            savedTransforms, transformType, count, stencilSettings⟩),
           some (Cmd.drawPaths ⟨pathRange, savedIndices, indexType, savedTransforms,
            transformType, count, stencilSettings⟩)) := by
      simp only [recordDrawPaths, hs]
      split
      · rw [if_neg]
        intro hC
        exact absurd hC.2.2.2.2.1 (by simp [hfill])
      · rfl
    constructor
    · refine ⟨rest0 ++ [Cmd.drawPaths ⟨pathRange, savedIndices, indexType,
        savedTransforms, transformType, count, stencilSettings⟩], ?_⟩
      rw [hres]
      simp [appendCmd, hrest0]
    · intro _
      rw [hres]
      exact ⟨by simp [appendCmd, cmdBack_concat], rfl⟩

theorem recordDrawPaths_nonwinding_never_merges_witness :
    path_fill_type_is_winding evenOddStencil = false ∧
    ((∃ rest, (recordDrawPaths ext0 tcW ppW 1 6 PathIndexType.kU16 6
        PathTransformType.kTranslate 5 evenOddStencil 1).1.fCmdBuffer
      = tcW.fCmdBuffer ++ rest) ∧
     ((ext0.setupPipeline 1).mustSkip = false →
      cmdBack (recordDrawPaths ext0 tcW ppW 1 6 PathIndexType.kU16 6
          PathTransformType.kTranslate 5 evenOddStencil 1).1.fCmdBuffer
        = some (Cmd.drawPaths ⟨1, 6, PathIndexType.kU16, 6,
            PathTransformType.kTranslate, 5, evenOddStencil⟩) ∧
      (recordDrawPaths ext0 tcW ppW 1 6 PathIndexType.kU16 6
          PathTransformType.kTranslate 5 evenOddStencil 1).2
        = some (Cmd.drawPaths ⟨1, 6, PathIndexType.kU16, 6,
            PathTransformType.kTranslate, 5, evenOddStencil⟩))) :=
  ⟨by decide, recordDrawPaths_nonwinding_never_merges ext0 tcW ppW 1 6 PathIndexType.kU16
    6 PathTransformType.kTranslate 5 evenOddStencil 1 (by decide)⟩
